import Mathlib

/-!
Shallow embedding of `graalvm_arrow_stream` (src/src/lib.rs, src/src/graal.rs).

The crate is a lifetime/resource-management wrapper around a GraalVM native
library ("host runtime").  All host-runtime behaviour reaches the crate only
through six C function pointers, so we model the host as a record of pure
response functions (`Host`, `LibModel`) and embed each Rust function as a pure
Lean function that returns both its result and the trace of host-runtime
events it performs, in order.
-/

/- ### UTF-8 decoding (model of `CStr::to_string_lossy`)

Rust's lossy decoding follows the WHATWG "maximal subpart" rule: each invalid
sequence is replaced by a single U+FFFD, resuming after the longest valid
prefix of the sequence.  `utf8Step` consumes one scalar-value encoding (or the
maximal invalid subpart) and is shared by the strict and the lossy decoder. -/

def replacementChar : Char := Char.ofNat 0xFFFD

def isCont (b : UInt8) : Bool := 0x80 ≤ b && b ≤ 0xBF

def cont1of3 (b c1 : UInt8) : Bool :=
  if b == 0xE0 then 0xA0 ≤ c1 && c1 ≤ 0xBF
  else if b == 0xED then 0x80 ≤ c1 && c1 ≤ 0x9F
  else isCont c1

def cont1of4 (b c1 : UInt8) : Bool :=
  if b == 0xF0 then 0x90 ≤ c1 && c1 ≤ 0xBF
  else if b == 0xF4 then 0x80 ≤ c1 && c1 ≤ 0x8F
  else isCont c1

def utf8Step (b : UInt8) (rest : List UInt8) : Option Char × List UInt8 :=
  if b ≤ 0x7F then (some (Char.ofNat b.toNat), rest)
  else if b ≤ 0xC1 then (none, rest)
  else if b ≤ 0xDF then
    match rest with
    | [] => (none, [])
    | c1 :: r1 =>
      if isCont c1 then
        (some (Char.ofNat ((b.toNat - 0xC0) * 64 + (c1.toNat - 0x80))), r1)
      else (none, c1 :: r1)
  else if b ≤ 0xEF then
    match rest with
    | [] => (none, [])
    | c1 :: r1 =>
      if cont1of3 b c1 then
        match r1 with
        | [] => (none, [])
        | c2 :: r2 =>
          if isCont c2 then
            (some (Char.ofNat
              ((b.toNat - 0xE0) * 4096 + (c1.toNat - 0x80) * 64 + (c2.toNat - 0x80))), r2)
          else (none, c2 :: r2)
      else (none, c1 :: r1)
  else if b ≤ 0xF4 then
    match rest with
    | [] => (none, [])
    | c1 :: r1 =>
      if cont1of4 b c1 then
        match r1 with
        | [] => (none, [])
        | c2 :: r2 =>
          if isCont c2 then
            match r2 with
            | [] => (none, [])
            | c3 :: r3 =>
              if isCont c3 then
                (some (Char.ofNat
                  ((b.toNat - 0xF0) * 262144 + (c1.toNat - 0x80) * 4096 +
                    (c2.toNat - 0x80) * 64 + (c3.toNat - 0x80))), r3)
              else (none, c3 :: r3)
          else (none, c2 :: r2)
      else (none, c1 :: r1)
  else (none, rest)

theorem utf8Step_len (b : UInt8) (rest : List UInt8) :
    (utf8Step b rest).2.length ≤ rest.length := by
  unfold utf8Step
  repeat' split
  all_goals simp_all
  all_goals omega

theorem utf8Step_snd_lt (b : UInt8) (rest : List UInt8) :
    (utf8Step b rest).2.length < (b :: rest).length := by
  have := utf8Step_len b rest
  simp only [List.length_cons]
  omega

/- The decoders recurse structurally on a fuel argument so that they reduce
inside the kernel; `utf8Step_len` guarantees fuel `bs.length` is always
enough (each step consumes at least one byte), see `utf8DecodeLossyF_fuel`. -/

def utf8DecodeLossyF : Nat → List UInt8 → List Char
  | _, [] => []
  | 0, _ :: _ => []
  | fuel + 1, b :: rest =>
    (match (utf8Step b rest).1 with
     | some c => c
     | none => replacementChar) :: utf8DecodeLossyF fuel (utf8Step b rest).2

def utf8DecodeLossy (bs : List UInt8) : List Char := utf8DecodeLossyF bs.length bs

def utf8DecodeStrictF : Nat → List UInt8 → Option (List Char)
  | _, [] => some []
  | 0, _ :: _ => none
  | fuel + 1, b :: rest =>
    match (utf8Step b rest).1 with
    | some c => (utf8DecodeStrictF fuel (utf8Step b rest).2).map (fun cs => c :: cs)
    | none => none

def utf8DecodeStrict (bs : List UInt8) : Option (List Char) :=
  utf8DecodeStrictF bs.length bs

theorem utf8DecodeLossyF_fuel :
    ∀ (f g : Nat) (bs : List UInt8), bs.length ≤ f → bs.length ≤ g →
      utf8DecodeLossyF f bs = utf8DecodeLossyF g bs := by
  intro f
  induction f with
  | zero =>
    intro g bs hf _
    have hnil : bs = [] := List.length_eq_zero.mp (Nat.le_zero.mp hf)
    subst hnil
    cases g <;> rfl
  | succ f ih =>
    intro g bs hf hg
    match bs, g with
    | [], g' => cases g' <;> rfl
    | b :: rest, 0 => exact absurd hg (by simp)
    | b :: rest, g + 1 =>
      simp only [utf8DecodeLossyF]
      have hs := utf8Step_len b rest
      simp only [List.length_cons] at hf hg
      rw [ih g (utf8Step b rest).2 (by omega) (by omega)]

theorem utf8DecodeStrictF_fuel :
    ∀ (f g : Nat) (bs : List UInt8), bs.length ≤ f → bs.length ≤ g →
      utf8DecodeStrictF f bs = utf8DecodeStrictF g bs := by
  intro f
  induction f with
  | zero =>
    intro g bs hf _
    have hnil : bs = [] := List.length_eq_zero.mp (Nat.le_zero.mp hf)
    subst hnil
    cases g <;> rfl
  | succ f ih =>
    intro g bs hf hg
    match bs, g with
    | [], g' => cases g' <;> rfl
    | b :: rest, 0 => exact absurd hg (by simp)
    | b :: rest, g + 1 =>
      simp only [utf8DecodeStrictF]
      have hs := utf8Step_len b rest
      simp only [List.length_cons] at hf hg
      rw [ih g (utf8Step b rest).2 (by omega) (by omega)]

/-- On byte strings that are valid UTF-8 the lossy decoder agrees with the
strict one: lossy replacement only happens on invalid text. -/
theorem utf8DecodeLossy_of_strict_aux :
    ∀ (n : Nat) (bs : List UInt8), bs.length ≤ n →
      ∀ cs, utf8DecodeStrictF n bs = some cs → utf8DecodeLossyF n bs = cs := by
  intro n
  induction n with
  | zero =>
    intro bs hlen cs hs
    have hnil : bs = [] := List.length_eq_zero.mp (Nat.le_zero.mp hlen)
    subst hnil
    simp only [utf8DecodeStrictF, Option.some.injEq] at hs
    simp [utf8DecodeLossyF, ← hs]
  | succ n ih =>
    intro bs hlen cs hs
    match bs with
    | [] =>
      simp only [utf8DecodeStrictF, Option.some.injEq] at hs
      simp [utf8DecodeLossyF, ← hs]
    | b :: rest =>
      rcases hstep : utf8Step b rest with ⟨c?, r⟩
      have hrlen : r.length ≤ rest.length := by
        have := utf8Step_len b rest
        rw [hstep] at this
        exact this
      match c? with
      | none =>
        simp only [utf8DecodeStrictF, hstep] at hs
        exact Option.noConfusion hs
      | some c =>
        simp only [utf8DecodeStrictF, hstep] at hs
        rcases Option.map_eq_some'.mp hs with ⟨cs', hcs', rfl⟩
        simp only [utf8DecodeLossyF, hstep]
        have hn : r.length ≤ n := by
          simp only [List.length_cons] at hlen
          omega
        rw [ih r hn cs' hcs']

theorem utf8DecodeLossy_of_strict (bs : List UInt8) (cs : List Char)
    (h : utf8DecodeStrict bs = some cs) : utf8DecodeLossy bs = cs :=
  utf8DecodeLossy_of_strict_aux bs.length bs (Nat.le_refl _) cs h

/- ### Substring test (used to formalise "an error naming the missing symbol") -/

def isPrefixB : List Char → List Char → Bool
  | [], _ => true
  | _ :: _, [] => false
  | a :: as, b :: bs => a == b && isPrefixB as bs

def isInfixB (needle : List Char) : List Char → Bool
  | [] => isPrefixB needle []
  | c :: cs => isPrefixB needle (c :: cs) || isInfixB needle cs

/- ### Error and outcome types

`ArrowError` models the two `arrow::error::ArrowError` constructors the crate
actually produces: `CDataInterface(String)` and `ExternalError(boxed)` (the
latter carried here as its display message).  `CrOutcome.panicked` models a
Rust panic (from `.unwrap()`), which is not a returned value. -/

inductive ArrowError
  | CDataInterface (msg : String)
  | ExternalError (msg : String)
deriving DecidableEq

inductive CrOutcome
  | panicked
  | error (e : ArrowError)
  | ok
deriving DecidableEq

instance : DecidableEq (Except ArrowError Unit) := fun a b =>
  match a, b with
  | Except.ok _, Except.ok _ => isTrue rfl
  | Except.error e1, Except.error e2 =>
    if h : e1 = e2 then isTrue (by rw [h])
    else isFalse (by intro hh; cases hh; exact h rfl)
  | Except.ok _, Except.error _ => isFalse (by intro h; cases h)
  | Except.error _, Except.ok _ => isFalse (by intro h; cases h)

/- ### Host-runtime events

One event per host-library interaction, in program order.  `resolve` is a
`lib.get` symbol lookup, `createIsolate` records that the create-context entry
point was invoked (with whether the configuration argument was null),
`wrapReader` records that the populated stream descriptor was handed to
`ArrowArrayStreamReader::from_raw`. -/

inductive GEvent
  | resolve (name : String)
  | createIsolate (cfgNull : Bool)
  | attachOk (tid : Nat)
  | attachFail
  | produce (tid : Nat)
  | lastErr (tid : Nat)
  | detachEv (tid : Nat) (rc : Int)
  | teardown (tid : Nat)
  | wrapReader
deriving DecidableEq

/- ### Host model

The crate sees the host runtime only through its six function pointers, so a
host is a record of response functions.  `fromRaw` is the outcome of the
external `ArrowArrayStreamReader::from_raw` adapter on the populated
descriptor. -/

structure Host where
  attachRc : Int
  attachTid : Nat
  produceRc : Nat → List UInt8 → Int
  detachRc : Nat → Int
  lastErrorWrite : Nat → List UInt8
  lastErrorRc : Int
  teardownRc : Nat → Int
  fromRaw : Except ArrowError Unit

/- ### `GraalArrowStreamer::last_error` (src/src/lib.rs lines 302-313)

A 1024-byte zero-initialised buffer is passed to `f_last_error`; the return
code of that call is discarded by the source.  The buffer is then read as a C
string (up to the first null terminator) and decoded with
`to_string_lossy`. -/

def bufferSize : Nat := 1024

def writeBuffer (written : List UInt8) : List UInt8 :=
  written.take bufferSize ++ List.replicate (bufferSize - written.length) 0

def cStrBytes (buf : List UInt8) : List UInt8 :=
  buf.takeWhile (fun b => b != 0)

def last_error (h : Host) (tid : Nat) : String :=
  String.mk (utf8DecodeLossy (cStrBytes (writeBuffer (h.lastErrorWrite tid))))

/- ### `GraalArrowStreamer::create_reader` (src/src/lib.rs lines 263-292)

Mirrors the source exactly: attach (`attach_tread`, error "can't attach
thread"), `CString::new(path).unwrap()` (panics on an embedded null byte),
the `f_create_reader` call, and on non-zero: `last_error`, then
`detach_thread(..)?`, then the `CDataInterface(error)` return; on zero:
`detach_thread(..)?`, then `from_raw(..)?`, then the wrapped reader. -/

def create_reader (h : Host) (path : List UInt8) : CrOutcome × List GEvent :=
  if h.attachRc = 0 then
    let tid := h.attachTid
    if path.contains 0 then
      (CrOutcome.panicked, [GEvent.attachOk tid])
    else
      if h.produceRc tid path ≠ 0 then
        let msg := last_error h tid
        let drc := h.detachRc tid
        let tr := [GEvent.attachOk tid, GEvent.produce tid, GEvent.lastErr tid,
                   GEvent.detachEv tid drc]
        if drc ≠ 0 then
          (CrOutcome.error (ArrowError.CDataInterface "can't detach thread"), tr)
        else
          (CrOutcome.error (ArrowError.CDataInterface msg), tr)
      else
        let drc := h.detachRc tid
        let tr := [GEvent.attachOk tid, GEvent.produce tid, GEvent.detachEv tid drc]
        if drc ≠ 0 then
          (CrOutcome.error (ArrowError.CDataInterface "can't detach thread"), tr)
        else
          match h.fromRaw with
          | Except.error e => (CrOutcome.error e, tr)
          | Except.ok _ => (CrOutcome.ok, tr ++ [GEvent.wrapReader])
  else
    (CrOutcome.error (ArrowError.CDataInterface "can't attach thread"),
     [GEvent.attachFail])

/- ### `impl Drop for GraalArrowStreamer` (src/src/lib.rs lines 377-390)

One attach attempt; on success the teardown entry point runs and its return
code is discarded; on failure nothing happens.  The body contains no unwrap
or other panicking operation, so the embedding returns `Unit`. -/

def drop_streamer (h : Host) : Unit × List GEvent :=
  if h.attachRc = 0 then
    ((), [GEvent.attachOk h.attachTid, GEvent.teardown h.attachTid])
  else
    ((), [GEvent.attachFail])

/- ### `GraalArrowStreamer::try_new` (src/src/lib.rs lines 172-253)

A symbol lookup (`lib.get`) can fail with a loader error (wrapped as
`ExternalError`), or succeed with a null function pointer, which the source
maps via `ok_or_else` to the `CDataInterface` messages below (note the
source's misspelling "f_graal_detach_tread").  All six symbols are resolved,
in source order, before `graal_create_isolate` is invoked with a null
configuration argument; on zero the initial thread is detached (return code
discarded) and the streamer is assembled. -/

inductive SymRes
  | missing (loaderMsg : String)
  | nullSym
  | found
deriving DecidableEq

structure LibModel where
  symCreateIsolate : SymRes
  symTearDownIsolate : SymRes
  symDetachThread : SymRes
  symAttachThread : SymRes
  symReaderStream : SymRes
  symLastError : SymRes
  createRc : Int
  initTid : Nat
  detachInitRc : Int
deriving DecidableEq

def resolveSym (s : SymRes) (nullMsg : String) : Except ArrowError Unit :=
  match s with
  | SymRes.missing m => Except.error (ArrowError.ExternalError m)
  | SymRes.nullSym => Except.error (ArrowError.CDataInterface nullMsg)
  | SymRes.found => Except.ok ()

def try_new (lib : LibModel) : Except ArrowError Unit × List GEvent :=
  let t1 := [GEvent.resolve "graal_create_isolate"]
  match resolveSym lib.symCreateIsolate "can't find f_graal_create_isolate method" with
  | Except.error e => (Except.error e, t1)
  | Except.ok _ =>
    let t2 := t1 ++ [GEvent.resolve "graal_tear_down_isolate"]
    match resolveSym lib.symTearDownIsolate "can't find f_graal_tear_down_isolate method" with
    | Except.error e => (Except.error e, t2)
    | Except.ok _ =>
      let t3 := t2 ++ [GEvent.resolve "graal_detach_thread"]
      match resolveSym lib.symDetachThread "can't find f_graal_detach_tread method" with
      | Except.error e => (Except.error e, t3)
      | Except.ok _ =>
        let t4 := t3 ++ [GEvent.resolve "graal_attach_thread"]
        match resolveSym lib.symAttachThread "can't find graal_attach_thread method" with
        | Except.error e => (Except.error e, t4)
        | Except.ok _ =>
          let t5 := t4 ++ [GEvent.resolve "gas_reader_stream"]
          match resolveSym lib.symReaderStream "can't find gas_reader_stream method" with
          | Except.error e => (Except.error e, t5)
          | Except.ok _ =>
            let t6 := t5 ++ [GEvent.resolve "gas_last_error"]
            match resolveSym lib.symLastError "can't find gas_last_error method" with
            | Except.error e => (Except.error e, t6)
            | Except.ok _ =>
              let t7 := t6 ++ [GEvent.createIsolate true]
              if lib.createRc ≠ 0 then
                (Except.error
                  (ArrowError.CDataInterface "run f_graal_create_isolate failed"), t7)
              else
                (Except.ok (), t7 ++ [GEvent.detachEv lib.initTid lib.detachInitRc])

/- The three convenience constructors (src/src/lib.rs lines 113-158) each load
the library (an external collaborator, modelled by its outcome) and delegate
to `try_new`. -/

def try_new_from_name (loadOk : Bool) (loadErrMsg : String) (lib : LibModel) :
    Except ArrowError Unit × List GEvent :=
  if loadOk then try_new lib
  else (Except.error (ArrowError.ExternalError loadErrMsg), [])

def try_new_from_file (loadOk : Bool) (loadErrMsg : String) (lib : LibModel) :
    Except ArrowError Unit × List GEvent :=
  if loadOk then try_new lib
  else (Except.error (ArrowError.ExternalError loadErrMsg), [])

def try_new_from_name_and_path (loadOk : Bool) (loadErrMsg : String) (lib : LibModel) :
    Except ArrowError Unit × List GEvent :=
  if loadOk then try_new lib
  else (Except.error (ArrowError.ExternalError loadErrMsg), [])

def allFound (lib : LibModel) : Bool :=
  match lib.symCreateIsolate, lib.symTearDownIsolate, lib.symDetachThread,
        lib.symAttachThread, lib.symReaderStream, lib.symLastError with
  | SymRes.found, SymRes.found, SymRes.found, SymRes.found, SymRes.found, SymRes.found => true
  | _, _, _, _, _, _ => false

def anyAbsent (lib : LibModel) : Bool := !allFound lib

/- ### Thread-registration trace predicates

`wellRegFrom s tr` walks a trace carrying the current registration (`none` =
no thread registered): every data-producing, error-retrieval and teardown
call must occur under a registration with the matching thread handle, and
registrations never nest.  A failed detach still ends the window here — the
traces end right after it either way.  `strictWindows` is the stronger shape
the spec text asserts: each successful attach is immediately followed by
exactly one protected call and then immediately by a detach. -/

def wellRegFrom : Option Nat → List GEvent → Bool
  | _, [] => true
  | s, GEvent.resolve _ :: r => wellRegFrom s r
  | s, GEvent.createIsolate _ :: r => wellRegFrom s r
  | s, GEvent.wrapReader :: r => wellRegFrom s r
  | none, GEvent.attachOk t :: r => wellRegFrom (some t) r
  | none, GEvent.attachFail :: r => wellRegFrom none r
  | none, GEvent.produce _ :: _ => false
  | none, GEvent.lastErr _ :: _ => false
  | none, GEvent.teardown _ :: _ => false
  | none, GEvent.detachEv _ _ :: _ => false
  | some _, GEvent.attachOk _ :: _ => false
  | some _, GEvent.attachFail :: _ => false
  | some t, GEvent.produce t2 :: r => t == t2 && wellRegFrom (some t) r
  | some t, GEvent.lastErr t2 :: r => t == t2 && wellRegFrom (some t) r
  | some t, GEvent.teardown t2 :: r => t == t2 && wellRegFrom (some t) r
  | some t, GEvent.detachEv t2 _ :: r => t == t2 && wellRegFrom none r

def isProtectedCallOn (t : Nat) : GEvent → Bool
  | GEvent.produce t2 => t == t2
  | GEvent.lastErr t2 => t == t2
  | GEvent.teardown t2 => t == t2
  | _ => false

def isRegEvent : GEvent → Bool
  | GEvent.attachOk _ => true
  | GEvent.attachFail => true
  | GEvent.produce _ => true
  | GEvent.lastErr _ => true
  | GEvent.teardown _ => true
  | GEvent.detachEv _ _ => true
  | _ => false

def regEvents (tr : List GEvent) : List GEvent := tr.filter isRegEvent

def strictWindows : List GEvent → Bool
  | [] => true
  | GEvent.attachFail :: r => strictWindows r
  | GEvent.attachOk t :: e :: GEvent.detachEv t2 _ :: r =>
    isProtectedCallOn t e && t == t2 && strictWindows r
  | _ => false

def isAttachAttempt : GEvent → Bool
  | GEvent.attachOk _ => true
  | GEvent.attachFail => true
  | _ => false

def countAttach (tr : List GEvent) : Nat := (tr.filter isAttachAttempt).length

/- ### Claim theorems -/

/-- C2 (amended): on the error path of `create_reader` the thread detach is
still attempted, but its failure is not masked-proof: a failing detach
replaces the original `DataSourceError` (the `?` on `detach_thread`
propagates the detach error); only when the detach succeeds is the
`CDataInterface` error carrying the host's diagnostic message returned. -/
theorem create_reader_error_path_detach (h : Host) (path : List UInt8)
    (hatt : h.attachRc = 0) (hnul : path.contains 0 = false)
    (hrc : h.produceRc h.attachTid path ≠ 0) :
    GEvent.detachEv h.attachTid (h.detachRc h.attachTid) ∈ (create_reader h path).2
    ∧ (h.detachRc h.attachTid ≠ 0 →
        (create_reader h path).1 =
          CrOutcome.error (ArrowError.CDataInterface "can't detach thread"))
    ∧ (h.detachRc h.attachTid = 0 →
        (create_reader h path).1 =
          CrOutcome.error (ArrowError.CDataInterface (last_error h h.attachTid))) := by
  have hnul' : (0 : UInt8) ∉ path := by simpa using hnul
  by_cases hd : h.detachRc h.attachTid = 0 <;>
    simp [create_reader, hatt, hnul', hrc, hd]

def hostC2ce : Host :=
  { attachRc := 0, attachTid := 7,
    produceRc := fun _ _ => 1,
    detachRc := fun _ => 1,
    lastErrorWrite := fun _ => [98, 111, 111, 109],
    lastErrorRc := 0, teardownRc := fun _ => 0, fromRaw := Except.ok () }

/-- C2 counterexample: with the host diagnostic "boom" and a failing detach,
`create_reader` returns the detach error, not the original data-source
error — the detach failure masks the original error. -/
theorem create_reader_error_path_detach_ce :
    last_error hostC2ce 7 = "boom"
    ∧ GEvent.detachEv 7 1 ∈ (create_reader hostC2ce [112]).2
    ∧ (create_reader hostC2ce [112]).1 =
        CrOutcome.error (ArrowError.CDataInterface "can't detach thread")
    ∧ (create_reader hostC2ce [112]).1 ≠
        CrOutcome.error (ArrowError.CDataInterface "boom") :=
  ⟨by decide, by decide, by decide, by decide⟩

def hostC2w : Host :=
  { attachRc := 0, attachTid := 2,
    produceRc := fun _ _ => 5,
    detachRc := fun _ => 3,
    lastErrorWrite := fun _ => [120],
    lastErrorRc := 0, teardownRc := fun _ => 0, fromRaw := Except.ok () }

/-- Witness for C2's amended theorem at a concrete host. -/
theorem create_reader_error_path_detach_witness :
    (create_reader hostC2w [112]).1 =
      CrOutcome.error (ArrowError.CDataInterface "can't detach thread") :=
  (create_reader_error_path_detach hostC2w [112] rfl (by decide) (by decide)).2.1
    (by decide)

/-- C3 (amended): for every path containing an embedded null byte no
data-producing call is made, but `create_reader` does not return an
`InvalidPathError`: `CString::new(path).unwrap()` panics (after the thread
was attached, and that thread is never detached). -/
theorem create_reader_nul_path (h : Host) (path : List UInt8)
    (hnul : path.contains 0 = true) :
    (∀ t, GEvent.produce t ∉ (create_reader h path).2)
    ∧ (h.attachRc = 0 → (create_reader h path).1 = CrOutcome.panicked)
    ∧ (∀ t rc, GEvent.detachEv t rc ∉ (create_reader h path).2) := by
  have hnul' : (0 : UInt8) ∈ path := by simpa using hnul
  by_cases hatt : h.attachRc = 0 <;> simp [create_reader, hatt, hnul']

def hostC3ce : Host :=
  { attachRc := 0, attachTid := 7,
    produceRc := fun _ _ => 0,
    detachRc := fun _ => 0,
    lastErrorWrite := fun _ => [],
    lastErrorRc := 0, teardownRc := fun _ => 0, fromRaw := Except.ok () }

/-- C3 counterexample: on the path "a\x00" (embedded null) `create_reader`
panics instead of returning any error value; no data-producing call is
made. -/
theorem create_reader_nul_path_ce :
    (create_reader hostC3ce [97, 0]).1 = CrOutcome.panicked
    ∧ (∀ e, (create_reader hostC3ce [97, 0]).1 ≠ CrOutcome.error e)
    ∧ (∀ t, GEvent.produce t ∉ (create_reader hostC3ce [97, 0]).2) := by
  refine ⟨by decide, ?_, ?_⟩
  · intro e hcontra
    have hres : (create_reader hostC3ce [97, 0]).1 = CrOutcome.panicked := by decide
    rw [hres] at hcontra
    exact CrOutcome.noConfusion hcontra
  · intro t ht
    have htr : (create_reader hostC3ce [97, 0]).2 = [GEvent.attachOk 7] := by decide
    rw [htr] at ht
    simp at ht

def hostC3w : Host :=
  { attachRc := 0, attachTid := 1,
    produceRc := fun _ _ => 0,
    detachRc := fun _ => 0,
    lastErrorWrite := fun _ => [],
    lastErrorRc := 0, teardownRc := fun _ => 0, fromRaw := Except.ok () }

/-- Witness for C3's amended theorem at a concrete host. -/
theorem create_reader_nul_path_witness :
    (create_reader hostC3w [0]).1 = CrOutcome.panicked :=
  (create_reader_nul_path hostC3w [0] (by decide)).2.1 rfl

/-- C4 (amended): when the data-producing entry point reports non-zero and
the subsequent detach succeeds, `create_reader` returns a `CDataInterface`
error whose message is the 1024-byte zero-initialised buffer as written by
the host, read up to the first null terminator and decoded lossily; when
those bytes are valid UTF-8 the message is that text verbatim. -/
theorem create_reader_data_source_error_message (h : Host) (path : List UInt8)
    (hatt : h.attachRc = 0) (hnul : path.contains 0 = false)
    (hrc : h.produceRc h.attachTid path ≠ 0)
    (hdet : h.detachRc h.attachTid = 0) :
    (create_reader h path).1 =
      CrOutcome.error (ArrowError.CDataInterface
        (String.mk (utf8DecodeLossy
          (cStrBytes (writeBuffer (h.lastErrorWrite h.attachTid))))))
    ∧ ∀ cs, utf8DecodeStrict (cStrBytes (writeBuffer (h.lastErrorWrite h.attachTid)))
          = some cs →
        (create_reader h path).1 =
          CrOutcome.error (ArrowError.CDataInterface (String.mk cs)) := by
  have hnul' : (0 : UInt8) ∉ path := by simpa using hnul
  constructor
  · simp [create_reader, last_error, hatt, hnul', hrc, hdet]
  · intro cs hcs
    have hl := utf8DecodeLossy_of_strict _ _ hcs
    simp [create_reader, last_error, hatt, hnul', hrc, hdet, hl]

def hostC4ce : Host :=
  { attachRc := 0, attachTid := 5,
    produceRc := fun _ _ => 1,
    detachRc := fun _ => 1,
    lastErrorWrite := fun _ => [107, 97, 98, 111, 111, 109],
    lastErrorRc := 0, teardownRc := fun _ => 0, fromRaw := Except.ok () }

/-- C4 counterexample: the host's diagnostic text is "kaboom", but because
the detach that follows fails, `create_reader` returns "can't detach
thread" — not a `DataSourceError` carrying the buffer text, refuting the
claim in its unconditional form. -/
theorem create_reader_data_source_error_message_ce :
    last_error hostC4ce 5 = "kaboom"
    ∧ (create_reader hostC4ce [112]).1 =
        CrOutcome.error (ArrowError.CDataInterface "can't detach thread")
    ∧ (create_reader hostC4ce [112]).1 ≠
        CrOutcome.error (ArrowError.CDataInterface "kaboom") :=
  ⟨by decide, by decide, by decide⟩

def hostC4w : Host :=
  { attachRc := 0, attachTid := 9,
    produceRc := fun _ _ => 2,
    detachRc := fun _ => 0,
    lastErrorWrite := fun _ => [111, 111, 112, 115],
    lastErrorRc := 0, teardownRc := fun _ => 0, fromRaw := Except.ok () }

/-- Witness for C4's amended theorem: an error message written as "oops"
comes back verbatim. -/
theorem create_reader_data_source_error_message_witness :
    (create_reader hostC4w [112]).1 =
      CrOutcome.error (ArrowError.CDataInterface "oops") :=
  (create_reader_data_source_error_message hostC4w [112] rfl (by decide)
      (by decide) rfl).2 "oops".data (by decide)

/-- C5: the `Drop` impl attempts exactly one thread attach; on success it
calls the teardown entry point (whose return code it ignores — the result
does not depend on `teardownRc`), on failure it does nothing; the embedded
body has no failing or panicking operation, so destruction always returns
`()` with exactly these traces. -/
theorem drop_streamer_spec (h : Host) :
    countAttach (drop_streamer h).2 = 1
    ∧ (drop_streamer h).2 =
        (if h.attachRc = 0 then
          [GEvent.attachOk h.attachTid, GEvent.teardown h.attachTid]
        else [GEvent.attachFail])
    ∧ (∀ rc, drop_streamer { h with teardownRc := rc } = drop_streamer h) := by
  by_cases hatt : h.attachRc = 0 <;>
    simp [drop_streamer, countAttach, isAttachAttempt, hatt]

def hostC6ce : Host :=
  { attachRc := 0, attachTid := 4,
    produceRc := fun _ _ => 1,
    detachRc := fun _ => 0,
    lastErrorWrite := fun _ => [],
    lastErrorRc := 0, teardownRc := fun _ => 0, fromRaw := Except.ok () }

/-- C6 counterexample: the claimed shape "attach immediately precedes and
detach immediately follows the single protected call" fails on the error
path of `create_reader` (one attach window covers both the data-producing
and the error-retrieval call) and in `Drop` (the teardown call's
registration is never detached), even though every call does run inside a
valid registration. -/
theorem strict_attach_detach_windows_ce :
    strictWindows (regEvents (create_reader hostC6ce [112]).2) = false
    ∧ strictWindows (regEvents (drop_streamer hostC6ce).2) = false
    ∧ wellRegFrom none (create_reader hostC6ce [112]).2 = true
    ∧ wellRegFrom none (drop_streamer hostC6ce).2 = true :=
  ⟨by decide, by decide, by decide, by decide⟩

/-- C6 (amended): in every execution of `create_reader` and of the `Drop`
teardown handler, each data-producing, error-retrieval and teardown call
runs under a currently-valid thread registration obtained by attach, with
the matching thread handle, and registrations are never nested or
interleaved (though a registration window may cover two calls, and the
teardown window is never detached). -/
theorem host_calls_within_registration (h : Host) (path : List UInt8) :
    wellRegFrom none (create_reader h path).2 = true
    ∧ wellRegFrom none (drop_streamer h).2 = true := by
  constructor
  · by_cases hatt : h.attachRc = 0
    · by_cases hnul : (0 : UInt8) ∈ path
      · simp [create_reader, hatt, hnul, wellRegFrom]
      · by_cases hrc : h.produceRc h.attachTid path = 0
        · by_cases hdet : h.detachRc h.attachTid = 0
          · cases hfr : h.fromRaw <;>
              simp [create_reader, hatt, hnul, hrc, hdet, hfr, wellRegFrom]
          · simp [create_reader, hatt, hnul, hrc, hdet, wellRegFrom]
        · by_cases hdet : h.detachRc h.attachTid = 0 <;>
            simp [create_reader, hatt, hnul, hrc, hdet, wellRegFrom]
    · simp [create_reader, hatt, wellRegFrom]
  · by_cases hatt : h.attachRc = 0 <;> simp [drop_streamer, hatt, wellRegFrom]

theorem allFound_iff (lib : LibModel) :
    allFound lib = true ↔
      lib.symCreateIsolate = SymRes.found ∧ lib.symTearDownIsolate = SymRes.found ∧
      lib.symDetachThread = SymRes.found ∧ lib.symAttachThread = SymRes.found ∧
      lib.symReaderStream = SymRes.found ∧ lib.symLastError = SymRes.found := by
  rcases lib with ⟨s1, s2, s3, s4, s5, s6, crc, tid, drc⟩
  cases s1 <;> cases s2 <;> cases s3 <;> cases s4 <;> cases s5 <;> cases s6 <;>
    simp [allFound]

/-- C7 (amended): whenever any of the six required symbols is absent,
`try_new` fails with an error and the create-context entry point is never
invoked (resolution failure is never deferred); the failure message for a
null symbol names the missing symbol for five of the six, but for
`graal_detach_thread` the message misspells it as `f_graal_detach_tread`;
the three convenience constructors delegate to `try_new` once the library
loads. -/
theorem try_new_symbol_resolution (lib : LibModel) :
    (anyAbsent lib = true →
      (∃ e, (try_new lib).1 = Except.error e)
      ∧ (∀ b, GEvent.createIsolate b ∉ (try_new lib).2))
    ∧ (lib.symCreateIsolate = SymRes.nullSym →
        (try_new lib).1 = Except.error (ArrowError.CDataInterface
          "can't find f_graal_create_isolate method")
        ∧ isInfixB "graal_create_isolate".data
            "can't find f_graal_create_isolate method".data = true)
    ∧ (lib.symCreateIsolate = SymRes.found → lib.symTearDownIsolate = SymRes.nullSym →
        (try_new lib).1 = Except.error (ArrowError.CDataInterface
          "can't find f_graal_tear_down_isolate method")
        ∧ isInfixB "graal_tear_down_isolate".data
            "can't find f_graal_tear_down_isolate method".data = true)
    ∧ (lib.symCreateIsolate = SymRes.found → lib.symTearDownIsolate = SymRes.found →
        lib.symDetachThread = SymRes.nullSym →
        (try_new lib).1 = Except.error (ArrowError.CDataInterface
          "can't find f_graal_detach_tread method")
        ∧ isInfixB "graal_detach_thread".data
            "can't find f_graal_detach_tread method".data = false)
    ∧ (lib.symCreateIsolate = SymRes.found → lib.symTearDownIsolate = SymRes.found →
        lib.symDetachThread = SymRes.found → lib.symAttachThread = SymRes.nullSym →
        (try_new lib).1 = Except.error (ArrowError.CDataInterface
          "can't find graal_attach_thread method")
        ∧ isInfixB "graal_attach_thread".data
            "can't find graal_attach_thread method".data = true)
    ∧ (lib.symCreateIsolate = SymRes.found → lib.symTearDownIsolate = SymRes.found →
        lib.symDetachThread = SymRes.found → lib.symAttachThread = SymRes.found →
        lib.symReaderStream = SymRes.nullSym →
        (try_new lib).1 = Except.error (ArrowError.CDataInterface
          "can't find gas_reader_stream method")
        ∧ isInfixB "gas_reader_stream".data
            "can't find gas_reader_stream method".data = true)
    ∧ (lib.symCreateIsolate = SymRes.found → lib.symTearDownIsolate = SymRes.found →
        lib.symDetachThread = SymRes.found → lib.symAttachThread = SymRes.found →
        lib.symReaderStream = SymRes.found → lib.symLastError = SymRes.nullSym →
        (try_new lib).1 = Except.error (ArrowError.CDataInterface
          "can't find gas_last_error method")
        ∧ isInfixB "gas_last_error".data
            "can't find gas_last_error method".data = true)
    ∧ (∀ m, try_new_from_name true m lib = try_new lib
        ∧ try_new_from_file true m lib = try_new lib
        ∧ try_new_from_name_and_path true m lib = try_new lib) := by
  refine ⟨?_, ?_, ?_, ?_, ?_, ?_, ?_, ?_⟩
  · intro habs
    rcases lib with ⟨s1, s2, s3, s4, s5, s6, crc, tid, drc⟩
    cases s1 <;> cases s2 <;> cases s3 <;> cases s4 <;> cases s5 <;> cases s6 <;>
      simp_all [try_new, resolveSym, anyAbsent, allFound]
  · intro h1
    exact ⟨by simp [try_new, resolveSym, h1], by decide⟩
  · intro h1 h2
    exact ⟨by simp [try_new, resolveSym, h1, h2], by decide⟩
  · intro h1 h2 h3
    exact ⟨by simp [try_new, resolveSym, h1, h2, h3], by decide⟩
  · intro h1 h2 h3 h4
    exact ⟨by simp [try_new, resolveSym, h1, h2, h3, h4], by decide⟩
  · intro h1 h2 h3 h4 h5
    exact ⟨by simp [try_new, resolveSym, h1, h2, h3, h4, h5], by decide⟩
  · intro h1 h2 h3 h4 h5 h6
    exact ⟨by simp [try_new, resolveSym, h1, h2, h3, h4, h5, h6], by decide⟩
  · intro m
    exact ⟨rfl, rfl, rfl⟩

def libC7ce : LibModel :=
  { symCreateIsolate := SymRes.found, symTearDownIsolate := SymRes.found,
    symDetachThread := SymRes.nullSym, symAttachThread := SymRes.found,
    symReaderStream := SymRes.found, symLastError := SymRes.found,
    createRc := 0, initTid := 3, detachInitRc := 0 }

/-- C7 counterexample: when `graal_detach_thread` resolves to a null symbol,
construction fails before any context is created, but the error message
"can't find f_graal_detach_tread method" does not contain the missing
symbol's name (the source misspells it), refuting "an error naming the
missing symbol". -/
theorem try_new_symbol_resolution_ce :
    (try_new libC7ce).1 = Except.error (ArrowError.CDataInterface
      "can't find f_graal_detach_tread method")
    ∧ isInfixB "graal_detach_thread".data
        "can't find f_graal_detach_tread method".data = false
    ∧ (∀ b, GEvent.createIsolate b ∉ (try_new libC7ce).2) :=
  ⟨by decide, by decide, by decide⟩

def libC7w : LibModel :=
  { symCreateIsolate := SymRes.nullSym, symTearDownIsolate := SymRes.found,
    symDetachThread := SymRes.found, symAttachThread := SymRes.found,
    symReaderStream := SymRes.found, symLastError := SymRes.found,
    createRc := 0, initTid := 3, detachInitRc := 0 }

/-- Witness for C7's amended theorem at a concrete library model. -/
theorem try_new_symbol_resolution_witness :
    ((∃ e, (try_new libC7w).1 = Except.error e)
      ∧ (∀ b, GEvent.createIsolate b ∉ (try_new libC7w).2))
    ∧ (try_new libC7w).1 = Except.error (ArrowError.CDataInterface
        "can't find f_graal_create_isolate method") :=
  ⟨(try_new_symbol_resolution libC7w).1 (by decide),
   ((try_new_symbol_resolution libC7w).2.1 rfl).1⟩

def resolveAllEvents : List GEvent :=
  [GEvent.resolve "graal_create_isolate", GEvent.resolve "graal_tear_down_isolate",
   GEvent.resolve "graal_detach_thread", GEvent.resolve "graal_attach_thread",
   GEvent.resolve "gas_reader_stream", GEvent.resolve "gas_last_error"]

/-- C8: with all six symbols resolved, `try_new` invokes the create-context
entry point with a null configuration argument; on a non-zero report it
fails with the context-creation error (and no thread is ever detached),
and on zero the initial thread registration is detached immediately after
creation, as the last action before the streamer is returned. -/
theorem try_new_create_context (lib : LibModel) (hall : allFound lib = true) :
    (lib.createRc ≠ 0 →
      (try_new lib).1 =
        Except.error (ArrowError.CDataInterface "run f_graal_create_isolate failed")
      ∧ ∀ t rc, GEvent.detachEv t rc ∉ (try_new lib).2)
    ∧ (lib.createRc = 0 →
      (try_new lib).1 = Except.ok ()
      ∧ (try_new lib).2 =
          resolveAllEvents ++ [GEvent.createIsolate true,
            GEvent.detachEv lib.initTid lib.detachInitRc]) := by
  obtain ⟨h1, h2, h3, h4, h5, h6⟩ := (allFound_iff lib).mp hall
  constructor
  · intro hc
    constructor <;>
      simp [try_new, resolveSym, h1, h2, h3, h4, h5, h6, hc]
  · intro hc
    constructor <;>
      simp [try_new, resolveSym, resolveAllEvents, h1, h2, h3, h4, h5, h6, hc]

def libC8w : LibModel :=
  { symCreateIsolate := SymRes.found, symTearDownIsolate := SymRes.found,
    symDetachThread := SymRes.found, symAttachThread := SymRes.found,
    symReaderStream := SymRes.found, symLastError := SymRes.found,
    createRc := 0, initTid := 11, detachInitRc := 0 }

/-- Witness for C8's theorem at a concrete library model with a succeeding
context creation. -/
theorem try_new_create_context_witness :
    (try_new libC8w).1 = Except.ok ()
    ∧ (try_new libC8w).2 =
        resolveAllEvents ++ [GEvent.createIsolate true, GEvent.detachEv 11 0] :=
  (try_new_create_context libC8w (by decide)).2 rfl

/-- C9: `last_error` never inspects the return code of the error-retrieval
entry point — its result is unchanged under any value of that code — and a
retrieval that writes nothing leaves the zero-initialised buffer intact, so
the result is the empty string rather than an error. -/
theorem last_error_ignores_rc (h : Host) (tid : Nat) :
    (∀ rc, last_error { h with lastErrorRc := rc } tid = last_error h tid)
    ∧ (h.lastErrorWrite tid = [] → last_error h tid = "") := by
  constructor
  · intro rc
    simp [last_error]
  · intro hw
    unfold last_error
    rw [hw]
    decide

def hostC9w : Host :=
  { attachRc := 0, attachTid := 3,
    produceRc := fun _ _ => 1,
    detachRc := fun _ => 0,
    lastErrorWrite := fun _ => [],
    lastErrorRc := 17, teardownRc := fun _ => 0, fromRaw := Except.ok () }

/-- Witness for C9's theorem: a host whose error-retrieval call writes
nothing and reports the failure code 17 still yields the empty string. -/
theorem last_error_ignores_rc_witness : last_error hostC9w 3 = "" :=
  (last_error_ignores_rc hostC9w 3).2 rfl

/-- C10: on the success path (data-producing entry point reports zero), if
the subsequent detach fails, `create_reader` returns the detach error
rather than a reader — the stream descriptor is never wrapped. -/
theorem create_reader_success_detach_failure (h : Host) (path : List UInt8)
    (hatt : h.attachRc = 0) (hnul : path.contains 0 = false)
    (hrc : h.produceRc h.attachTid path = 0)
    (hdet : h.detachRc h.attachTid ≠ 0) :
    (create_reader h path).1 =
      CrOutcome.error (ArrowError.CDataInterface "can't detach thread")
    ∧ GEvent.wrapReader ∉ (create_reader h path).2
    ∧ (create_reader h path).1 ≠ CrOutcome.ok := by
  have hnul' : (0 : UInt8) ∉ path := by simpa using hnul
  simp [create_reader, hatt, hnul', hrc, hdet]

def hostC10w : Host :=
  { attachRc := 0, attachTid := 6,
    produceRc := fun _ _ => 0,
    detachRc := fun _ => 4,
    lastErrorWrite := fun _ => [],
    lastErrorRc := 0, teardownRc := fun _ => 0, fromRaw := Except.ok () }

/-- Witness for C10's theorem at a concrete host. -/
theorem create_reader_success_detach_failure_witness :
    (create_reader hostC10w [112]).1 =
      CrOutcome.error (ArrowError.CDataInterface "can't detach thread") :=
  (create_reader_success_detach_failure hostC10w [112] rfl (by decide) rfl
    (by decide)).1

def hostC5w : Host :=
  { attachRc := 0, attachTid := 8,
    produceRc := fun _ _ => 0,
    detachRc := fun _ => 0,
    lastErrorWrite := fun _ => [],
    lastErrorRc := 0, teardownRc := fun _ => 9, fromRaw := Except.ok () }

/-- Witness for C5's theorem at a concrete host. -/
theorem drop_streamer_spec_witness :
    countAttach (drop_streamer hostC5w).2 = 1
    ∧ (drop_streamer hostC5w).2 = [GEvent.attachOk 8, GEvent.teardown 8] :=
  ⟨(drop_streamer_spec hostC5w).1, (drop_streamer_spec hostC5w).2.1⟩

def hostC6w : Host :=
  { attachRc := 0, attachTid := 12,
    produceRc := fun _ _ => 1,
    detachRc := fun _ => 0,
    lastErrorWrite := fun _ => [],
    lastErrorRc := 0, teardownRc := fun _ => 0, fromRaw := Except.ok () }

/-- Witness for C6's amended theorem at a concrete host. -/
theorem host_calls_within_registration_witness :
    wellRegFrom none (create_reader hostC6w [112]).2 = true
    ∧ wellRegFrom none (drop_streamer hostC6w).2 = true :=
  host_calls_within_registration hostC6w [112]
